import Mathlib

/-!
# Verification of the tacocat music core (Track Resolver + Session Scheduler)

Shallow embedding of `bot/commands/music/tracks.py`, `player.py` and
`cog.py`.  External collaborators (youtube-dl, tekore/Spotify, sclib,
the Discord voice client and text channels) are modelled as abstract
environments that the embedded functions consume, so the embedded code
is exactly the repository's control flow over arbitrary collaborator
behaviour.

Python strings are modelled as `List Char` / `String`; the `re` module
patterns used by the URL classifier are embedded as a small regex AST
with a Brzozowski-derivative matcher (`rmatch`), with `pyMatch` adding
Python's `re.match` treatment of a final `$` (which also matches just
before a single trailing newline).  `.` is any character except `'\n'`
(no DOTALL flag is set); `[a-zA-Z0-9]` is `Char.isAlphanum`; `\w` is
modelled as ASCII word characters (alphanumeric or underscore), an
approximation of Python's Unicode word class that only occurs in the
SoundCloud pattern's path segments.
-/

namespace Tacocat

/-! ## Definitions: regex engine and URL patterns, track resolver,
session scheduler and registry -/

/-- Regex AST: the constructs appearing in the three URL patterns of
`tracks.py` (character classes, concatenation, alternation, Kleene
star).  A single character class carries its membership test. -/
inductive Regex : Type where
  | eps : Regex
  | cls : (Char → Bool) → Regex
  | seq : Regex → Regex → Regex
  | alt : Regex → Regex → Regex
  | star : Regex → Regex

namespace Regex

/-- The empty regex (matches nothing): a class no character satisfies. -/
def zero : Regex := .cls (fun _ => false)

/-- A single literal character. -/
def chr (c : Char) : Regex := .cls (fun d => d == c)

/-- Does the regex match the empty string? -/
def matchEpsilon : Regex → Bool
  | .eps => true
  | .cls _ => false
  | .seq r1 r2 => r1.matchEpsilon && r2.matchEpsilon
  | .alt r1 r2 => r1.matchEpsilon || r2.matchEpsilon
  | .star _ => true

/-- Brzozowski derivative of a regex by one character. -/
def deriv : Regex → Char → Regex
  | .eps, _ => zero
  | .cls p, c => if p c then .eps else zero
  | .seq r1 r2, c =>
      if r1.matchEpsilon then .alt (.seq (deriv r1 c) r2) (deriv r2 c)
      else .seq (deriv r1 c) r2
  | .alt r1 r2, c => .alt (deriv r1 c) (deriv r2 c)
  | .star r, c => .seq (deriv r c) (.star r)

/-- Anchored full match of a regex against a character list. -/
def rmatch : Regex → List Char → Bool
  | r, [] => matchEpsilon r
  | r, c :: cs => rmatch (deriv r c) cs

/-- Literal word made of the given characters, in order. -/
def litL : List Char → Regex
  | [] => .eps
  | c :: cs => .seq (chr c) (litL cs)

/-- Literal word regex for a string. -/
def lit (s : String) : Regex := litL s.data

/-- Regex `r?` — zero or one occurrence. -/
def opt (r : Regex) : Regex := .alt r .eps

/-- Regex `r+` — one or more occurrences. -/
def plus (r : Regex) : Regex := .seq r (.star r)

/-- Regex `.` — any character except a newline (no `re.DOTALL`). -/
def dot : Regex := .cls (fun c => c != '\n')

/-- Semantics of `re.match` against a `^...$` pattern: the body must consume the
whole string, or the whole string minus one trailing newline (Python's
`$` also matches just before a final `'\n'`). -/
def pyMatch (r : Regex) (x : List Char) : Bool :=
  rmatch r x ||
    (match x.getLast? with
      | some c => c == '\n' && rmatch r x.dropLast
      | none => false)

end Regex

open Regex

/-- Body of `(https?:\/\/)?` without the outer `?`: `http`, optional `s`, `://`. -/
def scheme_re : Regex := .seq (lit "http") (.seq (opt (chr 's')) (lit "://"))

/-- Class `[a-zA-Z0-9]`. -/
def alnum_cls : Regex := .cls Char.isAlphanum

/-- Class `[\w\-\.]` (with `\w` as ASCII word characters). -/
def word_cls : Regex := .cls (fun c => c.isAlphanum || c == '_' || c == '-' || c == '.')

/-- The part of `YOUTUBE_REGEX` after the optional scheme:
`((www\.)?youtube\.com|youtu\.be)\/.+`. -/
def youtube_tail : Regex :=
  .seq (.alt (.seq (opt (lit "www.")) (lit "youtube.com")) (lit "youtu.be"))
    (.seq (chr '/') (plus dot))

/-- Pattern `youtube_pattern = re.compile(YOUTUBE_REGEX)`. -/
def youtube_pattern : Regex := .seq (opt scheme_re) youtube_tail

/-- The part of `SPOTIFY_REGEX` after the optional scheme:
`open.spotify.com\/track\/[a-zA-Z0-9]+\??.+`. -/
def spotify_tail : Regex :=
  .seq (lit "open") (.seq dot (.seq (lit "spotify") (.seq dot
    (.seq (lit "com/track/")
      (.seq (plus alnum_cls) (.seq (opt (chr '?')) (plus dot)))))))

/-- Pattern `spotify_pattern = re.compile(SPOTIFY_REGEX)`. -/
def spotify_pattern : Regex := .seq (opt scheme_re) spotify_tail

/-- The part of `SOUNDCLOUD_REGEX` after the optional scheme:
`(www.)?(m\.)?soundcloud\.com\/[\w\-\.]+(\/)+[\w\-\.]+\/?`. -/
def soundcloud_tail : Regex :=
  .seq (opt (.seq (lit "www") dot))
    (.seq (opt (lit "m."))
      (.seq (lit "soundcloud.com/")
        (.seq (plus word_cls)
          (.seq (plus (chr '/')) (.seq (plus word_cls) (opt (chr '/')))))))

/-- Pattern `soundcloud_pattern = re.compile(SOUNDCLOUD_REGEX)`. -/
def soundcloud_pattern : Regex := .seq (opt scheme_re) soundcloud_tail

/-- The supported platforms (`Platform` enum in `tracks.py`). -/
inductive Platform : Type where
  | YOUTUBE : Platform
  | SPOTIFY : Platform
  | SOUNDCLOUD : Platform
  deriving DecidableEq, Repr

/-- Python `string.lstrip("<").rstrip(">")`: drop all leading `'<'` and all
trailing `'>'` characters (Discord embed-suppression brackets). -/
def strip_suppression (cs : List Char) : List Char :=
  ((cs.dropWhile (fun c => c == '<')).reverse.dropWhile (fun c => c == '>')).reverse

/-- Function `_infer_from_url` from `tracks.py`: strip suppression brackets,
then try the three patterns in the fixed source order. -/
def _infer_from_url (s : String) : Option Platform :=
  let cs := strip_suppression s.data
  if pyMatch youtube_pattern cs then some .YOUTUBE
  else if pyMatch spotify_pattern cs then some .SPOTIFY
  else if pyMatch soundcloud_pattern cs then some .SOUNDCLOUD
  else none

/-- Equality of `Except` values is decidable when it is on both sides
(needed so witnesses can be checked by `decide`). -/
instance {ε α : Type} [DecidableEq ε] [DecidableEq α] :
    DecidableEq (Except ε α) := fun a b =>
  match a, b with
  | .ok a, .ok b =>
      if h : a = b then .isTrue (by rw [h]) else .isFalse (by simp [h])
  | .error a, .error b =>
      if h : a = b then .isTrue (by rw [h]) else .isFalse (by simp [h])
  | .ok _, .error _ => .isFalse (by simp)
  | .error _, .ok _ => .isFalse (by simp)

/-- Class `Track` from `tracks.py` (immutable value; the constructor just
stores the six fields). -/
structure Track : Type where
  platform : Platform
  title : String
  artist : String
  collab : Option String
  url : String
  stream_url : String
  deriving DecidableEq, Repr

/-- Exceptions that can escape the resolver, one constructor per raise
site.  `NotFoundError` is the source's custom class; `valueError`,
`indexError` are Python builtins; `extError` stands for an uncaught
exception raised inside an external library call. -/
inductive ResolveErr : Type where
  | notFoundYoutube : ResolveErr
  | notFoundSpotifySearch : ResolveErr
  | notFoundSpotifyId : ResolveErr
  | notFoundStream : ResolveErr
  | notFoundSoundcloud : ResolveErr
  | valueError : ResolveErr
  | indexError : ResolveErr
  | extError : ResolveErr
  deriving DecidableEq, Repr

/-- Which exceptions are instances of `NotFoundError`. -/
def ResolveErr.isNotFound : ResolveErr → Bool
  | .notFoundYoutube | .notFoundSpotifySearch | .notFoundSpotifyId
  | .notFoundStream | .notFoundSoundcloud => true
  | _ => false

/-- The fields of a youtube-dl info dict that the source reads. -/
structure YtEntry : Type where
  title : String
  uploader : String
  webpage_url : String
  url : String
  deriving DecidableEq, Repr

/-- Possible outcomes of `ytdl.extract_info(query, download=False)`:
it can raise, return `None`, return a plain video info dict, or return
a playlist-style dict containing an `"entries"` list. -/
inductive YtdlResult : Type where
  | raises : YtdlResult
  | noData : YtdlResult
  | video : YtEntry → YtdlResult
  | playlist : List YtEntry → YtdlResult
  deriving DecidableEq, Repr

/-- The fields of a tekore `FullTrack` that the source reads
(`track.artists` is the list of artist names, in order;
`url` is `track.external_urls["spotify"]`). -/
structure SpotifyTrack : Type where
  name : String
  artists : List String
  url : String
  id : String
  deriving DecidableEq, Repr

/-- Possible outcomes of `spotify.track(track_id)`. -/
inductive SpotifyLookup : Type where
  | badRequest : SpotifyLookup
  | raises : SpotifyLookup
  | found : SpotifyTrack → SpotifyLookup
  deriving DecidableEq, Repr

/-- The fields of an `sclib` track that the source reads
(`stream_url` models `result.get_stream_url()`). -/
structure ScTrack : Type where
  title : String
  artist : String
  permalink_url : String
  stream_url : String
  deriving DecidableEq, Repr

/-- Possible outcomes of `soundcloud.resolve(url)`: raise `TypeError`
(caught by the source), return a non-`sclib.Track` instance, raise some
other exception, or return a track. -/
inductive ScResolve : Type where
  | typeError : ScResolve
  | notTrack : ScResolve
  | raises : ScResolve
  | found : ScTrack → ScResolve
  deriving DecidableEq, Repr

/-- A remote platform-client call (used to state that a code path
performs no remote call).  `tekore.from_url` is a local URL parse, not
a remote call. -/
inductive RemoteCall : Type where
  | ytdlExtract : String → RemoteCall
  | spotifySearch : String → RemoteCall
  | spotifyLookup : String → RemoteCall
  | soundcloudResolve : String → RemoteCall
  deriving DecidableEq, Repr

/-- Abstract behaviour of the external libraries during one
resolution.  `spotify_search q` is the list `paging.items` of
`spotify.search(q, limit=1)` (`none` = the call raised);
`tekore_from_url u` is the track id parsed from the URL (`none` = the
parse raised). -/
structure ResolveEnv : Type where
  extract_info : String → YtdlResult
  spotify_search : String → Option (List SpotifyTrack)
  tekore_from_url : String → Option String
  spotify_track : String → SpotifyLookup
  soundcloud_resolve : String → ScResolve

/-- Function `_get_info_dict` from `tracks.py`: catch anything raised by
`extract_info` and turn it (or a `None` result) into `none`; if the
dict has an `"entries"` key take the first item — `data["entries"][0]`
raises `IndexError` when the entries list is empty, and that raise is
NOT caught (the `try` only wraps `extract_info`). -/
def _get_info_dict (env : ResolveEnv) (query : String) :
    Except ResolveErr (Option YtEntry) × List RemoteCall :=
  (match env.extract_info query with
    | .raises => .ok none
    | .noData => .ok none
    | .video e => .ok (some e)
    | .playlist [] => .error .indexError
    | .playlist (e :: _) => .ok (some e),
   [.ytdlExtract query])

/-- Function `make_youtube_track` from `tracks.py`. -/
def make_youtube_track (env : ResolveEnv) (query_or_url : String) :
    Except ResolveErr Track × List RemoteCall :=
  match _get_info_dict env query_or_url with
  | (.error e, calls) => (.error e, calls)
  | (.ok none, calls) => (.error .notFoundYoutube, calls)
  | (.ok (some d), calls) =>
      (.ok { platform := .YOUTUBE, title := d.title, artist := d.uploader,
             collab := none, url := d.webpage_url, stream_url := d.url },
       calls)

/-- Function `_unpack_spotify_track` from `tracks.py`, fused with the
`Track(**kwargs)` call of its two callers (the kwargs dict it returns
is passed verbatim to the `Track` constructor).  `track.artists[0]` on
an empty artist list raises `IndexError`; the fallback YouTube query
is `f"{title} {artist} {'' if collab is None else collab}"`. -/
def _unpack_spotify_track (env : ResolveEnv) (track : SpotifyTrack) :
    Except ResolveErr (Option Track) × List RemoteCall :=
  match track.artists with
  | [] => (.error .indexError, [])
  | artist :: rest =>
    let collab : Option String := rest.head?
    let query := track.name ++ " " ++ artist ++ " " ++ collab.getD ""
    match _get_info_dict env query with
    | (.error e, calls) => (.error e, calls)
    | (.ok none, calls) => (.ok none, calls)
    | (.ok (some d), calls) =>
        (.ok (some { platform := .SPOTIFY, title := track.name, artist := artist,
                     collab := collab, url := track.url, stream_url := d.url }),
         calls)

/-- Function `make_spotify_track_from_search` from `tracks.py`; an
`_unpack_spotify_track` result of `None` triggers
`_raise_stream_not_found` (`notFoundStream`). -/
def make_spotify_track_from_search (env : ResolveEnv) (query : String) :
    Except ResolveErr Track × List RemoteCall :=
  match env.spotify_search query with
  | none => (.error .extError, [.spotifySearch query])
  | some [] => (.error .notFoundSpotifySearch, [.spotifySearch query])
  | some (track :: _) =>
    match _unpack_spotify_track env track with
    | (.error e, calls) => (.error e, .spotifySearch query :: calls)
    | (.ok none, calls) => (.error .notFoundStream, .spotifySearch query :: calls)
    | (.ok (some tr), calls) => (.ok tr, .spotifySearch query :: calls)

/-- Function `make_spotify_track_from_url` from `tracks.py`. -/
def make_spotify_track_from_url (env : ResolveEnv) (url : String) :
    Except ResolveErr Track × List RemoteCall :=
  match env.tekore_from_url url with
  | none => (.error .extError, [])
  | some track_id =>
    match env.spotify_track track_id with
    | .badRequest => (.error .notFoundSpotifyId, [.spotifyLookup track_id])
    | .raises => (.error .extError, [.spotifyLookup track_id])
    | .found track =>
      match _unpack_spotify_track env track with
      | (.error e, calls) => (.error e, .spotifyLookup track_id :: calls)
      | (.ok none, calls) => (.error .notFoundStream, .spotifyLookup track_id :: calls)
      | (.ok (some tr), calls) => (.ok tr, .spotifyLookup track_id :: calls)

/-- Function `make_soundcloud_track_from_url` from `tracks.py`. -/
def make_soundcloud_track_from_url (env : ResolveEnv) (url : String) :
    Except ResolveErr Track × List RemoteCall :=
  match env.soundcloud_resolve url with
  | .typeError => (.error .notFoundSoundcloud, [.soundcloudResolve url])
  | .notTrack => (.error .notFoundSoundcloud, [.soundcloudResolve url])
  | .raises => (.error .extError, [.soundcloudResolve url])
  | .found t =>
      (.ok { platform := .SOUNDCLOUD, title := t.title, artist := t.artist,
             collab := none, url := t.permalink_url, stream_url := t.stream_url },
       [.soundcloudResolve url])

/-- Method `Track.from_query` from `tracks.py`: infer the platform from the
URL (overriding the hint when a pattern matches), then dispatch to the
platform helper; a non-URL query with the SoundCloud platform raises
`ValueError` before any remote call.  The `case _` branch raising
`InvariantError` is unreachable here because `Platform` is a closed
enum. -/
def from_query (env : ResolveEnv) (query_or_url : String) (platform : Platform) :
    Except ResolveErr Track × List RemoteCall :=
  let test := _infer_from_url query_or_url
  let platform := match test with
    | some p => p
    | none => platform
  match platform with
  | .YOUTUBE => make_youtube_track env query_or_url
  | .SPOTIFY =>
      match test with
      | none => make_spotify_track_from_search env query_or_url
      | some _ => make_spotify_track_from_url env query_or_url
  | .SOUNDCLOUD =>
      match test with
      | none => (.error .valueError, [])
      | some _ => make_soundcloud_track_from_url env query_or_url

/-- A sample youtube-dl entry. -/
def sampleEntry : YtEntry :=
  { title := "Title", uploader := "Uploader",
    webpage_url := "https://youtu.be/dQw4", url := "https://stream/1" }

/-- A second sample youtube-dl entry. -/
def sampleEntry2 : YtEntry :=
  { title := "Other", uploader := "Someone",
    webpage_url := "https://youtu.be/zzz", url := "https://stream/2" }

/-- A sample Spotify catalog track. -/
def sampleSpotifyTrack : SpotifyTrack :=
  { name := "Song", artists := ["Artist"], url := "https://sp/t", id := "id0" }

/-- A benign environment: every lookup succeeds with a single result. -/
def env0 : ResolveEnv :=
  { extract_info := fun _ => .video sampleEntry
    spotify_search := fun _ => some [sampleSpotifyTrack]
    tekore_from_url := fun _ => some "id0"
    spotify_track := fun _ => .found sampleSpotifyTrack
    soundcloud_resolve := fun _ =>
      .found { title := "SC", artist := "A", permalink_url := "https://sc/t",
               stream_url := "https://stream/3" } }

/-- Environment whose YouTube extractor always returns a multi-entry
playlist-style result. -/
def envPlaylist : ResolveEnv :=
  { env0 with extract_info := fun _ => .playlist [sampleEntry, sampleEntry2] }

/-- Environment where the fallback YouTube search of a Spotify
resolution finds zero results: the extractor returns a playlist-style
dict whose `"entries"` list is empty. -/
def envZeroResults : ResolveEnv :=
  { env0 with extract_info := fun _ => .playlist [] }

/-- The track that `env0` resolves for the sample YouTube URL. -/
def ytTrack0 : Track :=
  { platform := .YOUTUBE, title := "Title", artist := "Uploader",
    collab := none, url := "https://youtu.be/dQw4", stream_url := "https://stream/1" }

/-- Errors that can escape the player code: the source's
`InvariantError`, or a resolver exception propagating uncaught. -/
inductive PlayerErr : Type where
  | invariantError : PlayerErr
  | resolver : ResolveErr → PlayerErr
  deriving DecidableEq, Repr

/-- Observable state of `Guild::voice_client`: whether it exists
(`connected`) and what `is_playing()` / `is_paused()` report. -/
structure Device : Type where
  connected : Bool
  playing : Bool
  paused : Bool
  deriving DecidableEq, Repr

/-- Operations invoked on the voice client. -/
inductive DeviceOp : Type where
  | play : Track → DeviceOp
  | disconnect : DeviceOp
  deriving DecidableEq, Repr

/-- Operations on the "now playing" notification in the bound text
channel. -/
inductive NotifyOp : Type where
  | deleteNp : NotifyOp
  | sendNp : Track → NotifyOp
  deriving DecidableEq, Repr

/-- Messages that `play_track` / `_get_track` send in response to the
invoking command. -/
inductive Response : Type where
  | errorNotFound : Response
  | errorValue : Response
  | queued : Track → Response
  deriving DecidableEq, Repr

/-- The mutable state of a `Player` instance (`player.py`): the queue,
the cursor, the saved "now playing" message and the bound text
channel.  `_pos` is an unbounded integer, as in Python. -/
structure Player : Type where
  _queue : List Track
  _pos : Int
  _np_message : Option Track
  _text_channel : Nat
  deriving DecidableEq, Repr

/-- Method `Player.__init__`: empty queue, cursor 0, no notification, bound
to the channel of the creating request. -/
def Player.init (channel : Nat) : Player :=
  { _queue := [], _pos := 0, _np_message := none, _text_channel := channel }

/-- Method `Player._get_next_track`: raise `InvariantError` unless
`0 <= _pos <= len(_queue)`; then try to read `_queue[_pos]`
(`IndexError`, i.e. `_pos == len`, yields `None`) and advance `_pos`
only when a track was read. -/
def _get_next_track (p : Player) : Except PlayerErr (Option Track × Player) :=
  if 0 ≤ p._pos ∧ p._pos ≤ (p._queue.length : Int) then
    match p._queue.get? p._pos.toNat with
    | none => .ok (none, p)
    | some track => .ok (some track, { p with _pos := p._pos + 1 })
  else
    .error .invariantError

/-- Method `Player._update_np_message`: delete the existing notification if
any (deleting an already-gone message is tolerated by the source), then
either clear the saved reference (`embed = None`) or send and save a
new one. -/
def _update_np_message (p : Player) (embed : Option Track) : Player × List NotifyOp :=
  let dels : List NotifyOp := match p._np_message with
    | some _ => [.deleteNp]
    | none => []
  match embed with
  | none => ({ p with _np_message := none }, dels)
  | some t => ({ p with _np_message := some t }, dels ++ [.sendNp t])

/-- Method `Player._run_one_iteration`: accessing `self.vc` with no voice
client raises `InvariantError`; a playing or paused device means do
nothing; otherwise fetch the next track — if none, clear the
notification and return, else `vc.play` it and publish the new
notification. -/
def _run_one_iteration (dev : Device) (p : Player) :
    Except PlayerErr (Player × List DeviceOp × List NotifyOp) :=
  if dev.connected = false then .error .invariantError
  else if dev.playing || dev.paused then .ok (p, [], [])
  else
    match _get_next_track p with
    | .error e => .error e
    | .ok (none, p') =>
        let u := _update_np_message p' none
        .ok (u.1, [], u.2)
    | .ok (some track, p') =>
        let u := _update_np_message p' (some track)
        .ok (u.1, [.play track], u.2)

/-- Outcome of running the player loop for a bounded number of ticks. -/
inductive LoopOutcome : Type where
  | stillRunning : Player → LoopOutcome
  | ended : Player → LoopOutcome
  deriving DecidableEq, Repr

/-- Method `Player.run_player_loop`: `while True` around `_run_one_iteration`
with a short sleep; the loop body has no `break`, so the loop ends only
when an iteration raises, in which case the handler logs, the `finally`
block cancels the task and clears the notification.  Modelled with a
fuel bound on the number of ticks. -/
def run_player_loop : Nat → Device → Player → LoopOutcome
  | 0, _, p => .stillRunning p
  | fuel + 1, dev, p =>
    match _run_one_iteration dev p with
    | .error _ => .ended (_update_np_message p none).1
    | .ok (p', _, _) => run_player_loop fuel dev p'

/-- Did the loop terminate within the given number of ticks? -/
def loop_ended_after (fuel : Nat) (dev : Device) (p : Player) : Bool :=
  match run_player_loop fuel dev p with
  | .ended _ => true
  | .stillRunning _ => false

/-- Method `Player.disconnect_player`: decrement `_pos` (floored at 0) FIRST,
then call `self.vc.disconnect()` — so the decrement happens even when
the `vc` access raises `InvariantError`. -/
def disconnect_player (dev : Device) (p : Player) :
    Player × Except PlayerErr (List DeviceOp) :=
  let p' := if 0 < p._pos then { p with _pos := p._pos - 1 } else p
  if dev.connected then (p', .ok [.disconnect]) else (p', .error .invariantError)

/-- Function `_get_track` from `player.py`: run `Track.from_query`, turning a
`NotFoundError` or `ValueError` into an apologetic response and `None`;
any other exception propagates. -/
def _get_track (env : ResolveEnv) (q : String) (platform : Platform) :
    Except PlayerErr (Option Track) × List Response :=
  match (from_query env q platform).1 with
  | .ok t => (.ok (some t), [])
  | .error e =>
      if e.isNotFound then (.ok none, [.errorNotFound])
      else if e = .valueError then (.ok none, [.errorValue])
      else (.error (.resolver e), [])

/-- Method `Player.play_track`: resolve the query (failure already answered
the caller — return leaving all state untouched); on success append
the track to the queue, re-schedule the loop if needed (no effect on
queue or cursor), and confirm with a "Queued" embed. -/
def play_track (env : ResolveEnv) (p : Player) (q : String) (platform : Platform) :
    Except PlayerErr (Player × List Response) :=
  match _get_track env q platform with
  | (.error e, _) => .error e
  | (.ok none, resp) => .ok (p, resp)
  | (.ok (some track), resp) =>
      .ok ({ p with _queue := p._queue ++ [track] }, resp ++ [.queued track])

/-- The registry state of `MusicCog` (`cog.py`): the guild → player
mapping, as an association list whose head is the most recent insert.
NOTE: `cog.py` constructs new players as `Player(self.bot, guild)`
while `Player.__init__` in `player.py` takes a command context (the
two files are snapshots of different vintages); creation is modelled
after `Player.__init__`, which binds the new player to the requesting
channel.  Only the lookup path matters for the claims below. -/
structure MusicCog : Type where
  _players : List (Nat × Player)
  deriving DecidableEq, Repr

/-- Method `MusicCog.get_player`: `InvariantError` outside a guild; return
the stored player for the guild if one exists, else create, register
and return a fresh player. -/
def get_player (cog : MusicCog) (guild : Option Nat) (channel : Nat) :
    Except PlayerErr (Player × MusicCog) :=
  match guild with
  | none => .error .invariantError
  | some g =>
    match cog._players.lookup g with
    | some player => .ok (player, cog)
    | none =>
      let new_player := Player.init channel
      .ok (new_player, { _players := (g, new_player) :: cog._players })

/-- The cursor invariant documented on `Player._pos`:
`0 <= self._pos <= len(self._queue)`. -/
def CursorInv (p : Player) : Prop :=
  0 ≤ p._pos ∧ p._pos ≤ (p._queue.length : Int)

instance (p : Player) : Decidable (CursorInv p) := by
  unfold CursorInv; infer_instance

/-- One operation on a player: a `play_track` request (which enqueues
on success), a loop tick, or a disconnect.  Each is parameterised by
the external world it observes. -/
inductive PlayerOp : Type where
  | playTrack : ResolveEnv → String → Platform → PlayerOp
  | tick : Device → PlayerOp
  | disconnect : Device → PlayerOp

/-- Apply one operation to the player state.  When an operation raises,
the state it leaves behind is the one the source mutated before the
raise: every raise site in `play_track` and `_run_one_iteration`
precedes any queue/cursor mutation, and `disconnect_player` returns
its (already decremented) state separately from the raise. -/
def applyOp (p : Player) : PlayerOp → Player
  | .playTrack env q platform =>
      match play_track env p q platform with
      | .ok (p', _) => p'
      | .error _ => p
  | .tick dev =>
      match _run_one_iteration dev p with
      | .ok (p', _, _) => p'
      | .error _ => p
  | .disconnect dev => (disconnect_player dev p).1

/-- Run a sequence of operations from the initial player state. -/
def runOps (channel : Nat) (ops : List PlayerOp) : Player :=
  ops.foldl applyOp (Player.init channel)

/-- An idle, connected device. -/
def devIdle : Device := { connected := true, playing := false, paused := false }

/-- A player whose queue is exhausted and whose notification is live. -/
def pExhausted : Player :=
  { _queue := [ytTrack0], _pos := 1, _np_message := some ytTrack0, _text_channel := 0 }

/-- A stored player bound to text channel 1. -/
def pStored : Player :=
  { _queue := [ytTrack0], _pos := 1, _np_message := none, _text_channel := 1 }

/-- A registry that already holds `pStored` for guild 0. -/
def cog0 : MusicCog := { _players := [(0, pStored)] }

/-- A second sample track. -/
def sampleTrackA : Track :=
  { platform := .YOUTUBE, title := "A", artist := "AA", collab := none,
    url := "https://youtu.be/a", stream_url := "https://stream/a" }

/-- A third sample track. -/
def sampleTrackB : Track :=
  { platform := .SPOTIFY, title := "B", artist := "BB", collab := some "CC",
    url := "https://sp/b", stream_url := "https://stream/b" }

/-- A player mid-way through a three-track queue (`pos = 3`). -/
def pThree : Player :=
  { _queue := [ytTrack0, sampleTrackA, sampleTrackB], _pos := 3,
    _np_message := some sampleTrackB, _text_channel := 0 }

/-- How many of the three URL patterns match the input string after
stripping the Discord suppression brackets — exactly the matches the
`if`-ladder of `_infer_from_url` tries, in its order. -/
def url_pattern_match_count (s : String) : Nat :=
  (if pyMatch youtube_pattern (strip_suppression s.data) then 1 else 0) +
  (if pyMatch spotify_pattern (strip_suppression s.data) then 1 else 0) +
  (if pyMatch soundcloud_pattern (strip_suppression s.data) then 1 else 0)

/-! ## Theorems -/

namespace Regex

theorem zero_rmatch (x : List Char) : rmatch zero x = false := by
  induction x with
  | nil => rfl
  | cons c cs ih => simpa [rmatch, deriv, zero] using ih

theorem eps_rmatch {x : List Char} (h : rmatch .eps x = true) : x = [] := by
  cases x with
  | nil => rfl
  | cons c cs =>
      rw [rmatch, deriv] at h
      rw [zero_rmatch] at h
      exact absurd h (by simp)

theorem cls_rmatch {p : Char → Bool} {x : List Char}
    (h : rmatch (.cls p) x = true) : ∃ c, x = [c] ∧ p c = true := by
  cases x with
  | nil => exact absurd h (by simp [rmatch, matchEpsilon])
  | cons c cs =>
      rw [rmatch, deriv] at h
      by_cases hp : p c
      · rw [if_pos hp] at h
        exact ⟨c, by rw [eps_rmatch h], hp⟩
      · rw [if_neg hp, zero_rmatch] at h
        exact absurd h (by simp)

theorem chr_rmatch {c : Char} {x : List Char}
    (h : rmatch (chr c) x = true) : x = [c] := by
  obtain ⟨d, hx, hd⟩ := cls_rmatch h
  rw [hx, eq_of_beq hd]

theorem alt_rmatch {P Q : Regex} {x : List Char}
    (h : rmatch (.alt P Q) x = true) :
    rmatch P x = true ∨ rmatch Q x = true := by
  induction x generalizing P Q with
  | nil => simpa [rmatch, matchEpsilon] using h
  | cons c cs ih =>
      rw [rmatch, deriv] at h
      exact ih h

theorem seq_rmatch {P Q : Regex} {x : List Char}
    (h : rmatch (.seq P Q) x = true) :
    ∃ t u, x = t ++ u ∧ rmatch P t = true ∧ rmatch Q u = true := by
  induction x generalizing P Q with
  | nil =>
      rw [rmatch, matchEpsilon, Bool.and_eq_true] at h
      exact ⟨[], [], rfl, h.1, h.2⟩
  | cons c cs ih =>
      rw [rmatch, deriv] at h
      by_cases hE : P.matchEpsilon
      · rw [if_pos hE] at h
        rcases alt_rmatch h with h1 | h2
        · obtain ⟨t, u, hcs, hP, hQ⟩ := ih h1
          exact ⟨c :: t, u, by rw [hcs]; rfl, by rw [rmatch]; exact hP, hQ⟩
        · exact ⟨[], c :: cs, rfl, hE, by rw [rmatch]; exact h2⟩
      · rw [if_neg hE] at h
        obtain ⟨t, u, hcs, hP, hQ⟩ := ih h
        exact ⟨c :: t, u, by rw [hcs]; rfl, by rw [rmatch]; exact hP, hQ⟩

theorem litL_rmatch {cs x : List Char}
    (h : rmatch (litL cs) x = true) : x = cs := by
  induction cs generalizing x with
  | nil => exact eps_rmatch h
  | cons c cs ih =>
      obtain ⟨t, u, hx, hc, hrest⟩ := seq_rmatch h
      rw [hx, chr_rmatch hc, ih hrest]
      rfl

theorem opt_rmatch {r : Regex} {x : List Char}
    (h : rmatch (opt r) x = true) : rmatch r x = true ∨ x = [] := by
  rcases alt_rmatch h with h1 | h2
  · exact Or.inl h1
  · exact Or.inr (eps_rmatch h2)

end Regex

example : _infer_from_url "https://youtu.be/dQw4" = some .YOUTUBE := by decide

example : _infer_from_url "<https://www.youtube.com/watch?v=x>" = some .YOUTUBE := by decide

example : _infer_from_url "open.spotify.com/track/1Kx?si=0" = some .SPOTIFY := by decide

example : _infer_from_url "https://soundcloud.com/rarinmusic/gta" = some .SOUNDCLOUD := by decide

example : _infer_from_url "never gonna give you up" = none := by decide

theorem make_youtube_track_platform {env : ResolveEnv} {q : String} {tr : Track}
    (h : (make_youtube_track env q).1 = .ok tr) : tr.platform = .YOUTUBE := by
  unfold make_youtube_track at h
  split at h
  · simp at h
  · simp at h
  · dsimp only [] at h
    obtain rfl := Except.ok.inj h
    rfl

theorem _unpack_spotify_track_platform {env : ResolveEnv} {t : SpotifyTrack} {tr : Track}
    (h : (_unpack_spotify_track env t).1 = .ok (some tr)) : tr.platform = .SPOTIFY := by
  unfold _unpack_spotify_track at h
  split at h
  · simp at h
  · dsimp only [] at h
    split at h
    · simp at h
    · simp at h
    · dsimp only [] at h
      obtain rfl := Option.some.inj (Except.ok.inj h)
      rfl

theorem make_spotify_track_from_url_platform {env : ResolveEnv} {u : String} {tr : Track}
    (h : (make_spotify_track_from_url env u).1 = .ok tr) : tr.platform = .SPOTIFY := by
  unfold make_spotify_track_from_url at h
  split at h
  · simp at h
  · split at h
    · simp at h
    · simp at h
    · split at h
      · simp at h
      · simp at h
      · rename_i heq
        dsimp only [] at h
        obtain rfl := Except.ok.inj h
        exact _unpack_spotify_track_platform (by rw [heq])

theorem make_soundcloud_track_from_url_platform {env : ResolveEnv} {u : String} {tr : Track}
    (h : (make_soundcloud_track_from_url env u).1 = .ok tr) : tr.platform = .SOUNDCLOUD := by
  unfold make_soundcloud_track_from_url at h
  split at h
  · simp at h
  · simp at h
  · simp at h
  · dsimp only [] at h
    obtain rfl := Except.ok.inj h
    rfl

/-- C2: a query that matches one of the platform URL patterns resolves
(whenever it succeeds at all) to a `Track` whose `platform` is the
pattern's platform, whatever platform hint the caller passed: the
URL-inferred platform entirely overrides the hint. -/
theorem claim_C2_url_overrides_hint (env : ResolveEnv) (q : String)
    (hint p : Platform) (tr : Track)
    (hinfer : _infer_from_url q = some p)
    (hok : (from_query env q hint).1 = .ok tr) :
    tr.platform = p := by
  unfold from_query at hok
  rw [hinfer] at hok
  dsimp only [] at hok
  cases p with
  | YOUTUBE => exact make_youtube_track_platform hok
  | SPOTIFY => exact make_spotify_track_from_url_platform hok
  | SOUNDCLOUD => exact make_soundcloud_track_from_url_platform hok

/-- Witness for C2: a YouTube URL resolved with a Spotify hint yields a
YouTube track. -/
theorem claim_C2_url_overrides_hint_witness :
    _infer_from_url "https://youtu.be/dQw4" = some .YOUTUBE ∧
    (from_query env0 "https://youtu.be/dQw4" .SPOTIFY).1 = .ok ytTrack0 ∧
    ytTrack0.platform = .YOUTUBE :=
  ⟨by decide, by decide,
   claim_C2_url_overrides_hint env0 "https://youtu.be/dQw4" .SPOTIFY .YOUTUBE ytTrack0
     (by decide) (by decide)⟩

/-- C6: a non-URL query resolved with the SoundCloud platform hint
fails immediately with `ValueError` (the source's realisation of
`InvalidInput`) and performs no remote call at all. -/
theorem claim_C6_soundcloud_nonurl_rejected (env : ResolveEnv) (q : String)
    (h : _infer_from_url q = none) :
    from_query env q .SOUNDCLOUD = (.error .valueError, []) := by
  unfold from_query
  rw [h]

/-- Witness for C6: the free-text SoundCloud query from the repo's own
test suite is rejected without any remote call, in a fully benign
environment. -/
theorem claim_C6_soundcloud_nonurl_rejected_witness :
    _infer_from_url "rarinmusic gta" = none ∧
    from_query env0 "rarinmusic gta" .SOUNDCLOUD = (.error .valueError, []) :=
  ⟨by decide, claim_C6_soundcloud_nonurl_rejected env0 "rarinmusic gta" (by decide)⟩

/-- C10: when the extractor returns a playlist-style result, the
YouTube resolver builds its single `Track` from the first entry alone;
the remaining entries do not influence the result. -/
theorem claim_C10_playlist_first_entry (env : ResolveEnv) (q : String)
    (e : YtEntry) (es : List YtEntry)
    (h : env.extract_info q = .playlist (e :: es)) :
    make_youtube_track env q =
      (.ok { platform := .YOUTUBE, title := e.title, artist := e.uploader,
             collab := none, url := e.webpage_url, stream_url := e.url },
       [.ytdlExtract q]) := by
  unfold make_youtube_track _get_info_dict
  rw [h]

/-- Witness for C10: a two-entry playlist result yields exactly the
track of the first entry. -/
theorem claim_C10_playlist_first_entry_witness :
    envPlaylist.extract_info "some query" = .playlist [sampleEntry, sampleEntry2] ∧
    make_youtube_track envPlaylist "some query" =
      (.ok { platform := .YOUTUBE, title := "Title", artist := "Uploader",
             collab := none, url := "https://youtu.be/dQw4", stream_url := "https://stream/1" },
       [.ytdlExtract "some query"]) :=
  ⟨rfl, claim_C10_playlist_first_entry envPlaylist "some query" sampleEntry [sampleEntry2] rfl⟩

/-- C5 (code bug): when the first-stage Spotify lookup succeeds but the
second-stage fallback search returns a playlist dict with an empty
`"entries"` list (zero search results), `data["entries"][0]` in
`_get_info_dict` raises `IndexError`, which is not a `NotFoundError`
and is not caught anywhere in the resolver — contradicting both the
claim and `_get_info_dict`'s own docstring ("This function should not
raise anything"). -/
theorem claim_C5_zero_results_raises_index_error :
    (from_query envZeroResults "https://open.spotify.com/track/1KxwZYyz?si=01" .YOUTUBE).1 =
        .error .indexError ∧
    ResolveErr.isNotFound .indexError = false := by
  constructor
  · decide
  · rfl

/-- Lemma: `play_track` never moves the cursor, and either leaves the queue
alone (failed resolution) or appends exactly one track. -/
theorem play_track_state {env : ResolveEnv} {p : Player} {q : String}
    {platform : Platform} {p' : Player} {resp : List Response}
    (h : play_track env p q platform = .ok (p', resp)) :
    p'._pos = p._pos ∧ p'._np_message = p._np_message ∧
      (p'._queue = p._queue ∨ ∃ t, p'._queue = p._queue ++ [t]) := by
  unfold play_track at h
  split at h
  · simp at h
  · obtain rfl := (Prod.mk.injEq .. ▸ Except.ok.inj h).1
    exact ⟨rfl, rfl, Or.inl rfl⟩
  · obtain rfl := (Prod.mk.injEq .. ▸ Except.ok.inj h).1
    exact ⟨rfl, rfl, Or.inr ⟨_, rfl⟩⟩

/-- Lemma: `_get_next_track` re-establishes the cursor invariant on its own:
it refuses (raises) outside the invariant, returns the state unchanged
at exhaustion, and advances the cursor only when it is strictly inside
the queue. -/
theorem _get_next_track_inv {p : Player} {res : Option Track} {p' : Player}
    (h : _get_next_track p = .ok (res, p')) :
    p'._queue = p._queue ∧ p'._np_message = p._np_message ∧ CursorInv p' := by
  unfold _get_next_track at h
  split at h
  · rename_i hinv
    split at h
    · obtain rfl := (Prod.mk.injEq .. ▸ Except.ok.inj h).2
      exact ⟨rfl, rfl, hinv⟩
    · rename_i track hget
      obtain rfl := (Prod.mk.injEq .. ▸ Except.ok.inj h).2
      refine ⟨rfl, rfl, ?_, ?_⟩
      · simp only []
        omega
      · have hlt : p._pos.toNat < p._queue.length := (List.get?_eq_some.mp hget).1
        simp only []
        omega
  · simp at h

/-- Lemma: `_update_np_message` touches only the notification reference. -/
theorem _update_np_message_state (p : Player) (embed : Option Track) :
    (_update_np_message p embed).1._queue = p._queue ∧
      (_update_np_message p embed).1._pos = p._pos ∧
      (_update_np_message p embed).1._np_message = embed := by
  unfold _update_np_message
  cases embed <;> simp

/-- A successful loop tick preserves the cursor invariant. -/
theorem _run_one_iteration_inv {dev : Device} {p p' : Player}
    {dops : List DeviceOp} {nops : List NotifyOp}
    (hp : CursorInv p)
    (h : _run_one_iteration dev p = .ok (p', dops, nops)) :
    CursorInv p' := by
  unfold _run_one_iteration at h
  split at h
  · simp at h
  · split at h
    · obtain rfl := (Prod.mk.injEq .. ▸ Except.ok.inj h).1
      exact hp
    · split at h
      · simp at h
      · rename_i p2 hnext
        dsimp only [] at h
        obtain rfl := (Prod.mk.injEq .. ▸ Except.ok.inj h).1
        obtain ⟨hq, _, hinv⟩ := _get_next_track_inv hnext
        obtain ⟨hq', hp', _⟩ := _update_np_message_state p2 none
        exact ⟨hp' ▸ hinv.1, by rw [hp', hq']; exact hinv.2⟩
      · rename_i track p2 hnext
        dsimp only [] at h
        obtain rfl := (Prod.mk.injEq .. ▸ Except.ok.inj h).1
        obtain ⟨hq, _, hinv⟩ := _get_next_track_inv hnext
        obtain ⟨hq', hp', _⟩ := _update_np_message_state p2 (some track)
        exact ⟨hp' ▸ hinv.1, by rw [hp', hq']; exact hinv.2⟩

/-- Every single operation preserves the cursor invariant. -/
theorem applyOp_preserves {p : Player} (h : CursorInv p) (op : PlayerOp) :
    CursorInv (applyOp p op) := by
  cases op with
  | playTrack env q platform =>
      simp only [applyOp]
      split
      · rename_i p' resp hpt
        obtain ⟨hpos, _, hq⟩ := play_track_state hpt
        refine ⟨hpos ▸ h.1, ?_⟩
        rcases hq with hq | ⟨t, hq⟩
        · rw [hpos, hq]; exact h.2
        · rw [hpos, hq]
          have := h.2
          simp only [List.length_append, List.length_cons, List.length_nil]
          omega
      · exact h
  | tick dev =>
      simp only [applyOp]
      split
      · rename_i p' dops nops hiter
        exact _run_one_iteration_inv h hiter
      · exact h
  | disconnect dev =>
      have h1 := h.1
      have h2 := h.2
      simp only [applyOp, disconnect_player]
      split <;> simp only [] <;> split <;> constructor <;> (try simp only []) <;> omega

theorem cursorInv_foldl {p : Player} (h : CursorInv p) (ops : List PlayerOp) :
    CursorInv (ops.foldl applyOp p) := by
  induction ops generalizing p with
  | nil => exact h
  | cons op ops ih => exact ih (applyOp_preserves h op)

/-- C1: starting from the initial state, every sequence of
`play_track` / loop-tick / disconnect operations keeps the cursor
within `0 <= _pos <= len(_queue)` — and since every list of operations
is itself such a sequence, the invariant holds after every operation
of any run. -/
theorem claim_C1_cursor_invariant (channel : Nat) (ops : List PlayerOp) :
    0 ≤ (runOps channel ops)._pos ∧
      (runOps channel ops)._pos ≤ ((runOps channel ops)._queue.length : Int) :=
  cursorInv_foldl (by constructor <;> simp [Player.init]) ops

/-- A tick that finds the device idle and the queue exhausted clears
the notification reference, performs no device operation, and succeeds
(so the `while True` loop proceeds to the next tick). -/
theorem exhausted_tick {dev : Device} {p : Player} (hc : dev.connected = true)
    (hpl : dev.playing = false) (hps : dev.paused = false)
    (hpos : p._pos = (p._queue.length : Int)) :
    _run_one_iteration dev p =
      .ok ({ p with _np_message := none }, [], (_update_np_message p none).2) := by
  have hget : _get_next_track p = .ok (none, p) := by
    unfold _get_next_track
    rw [if_pos ⟨by omega, by omega⟩]
    rw [show p._pos.toNat = p._queue.length by omega]
    rw [List.get?_eq_none.mpr (le_refl _)]
  unfold _run_one_iteration
  rw [hc]
  simp only [Bool.true_eq_false, if_false, hpl, hps, Bool.or_self, Bool.false_eq_true,
    hget]
  rfl

/-- From an exhausted state over an idle connected device the loop
never terminates: each tick succeeds and leaves the player exhausted
again. -/
theorem exhausted_loop_runs {dev : Device} (hc : dev.connected = true)
    (hpl : dev.playing = false) (hps : dev.paused = false) :
    ∀ (fuel : Nat) (p : Player), p._pos = (p._queue.length : Int) →
      loop_ended_after fuel dev p = false := by
  intro fuel
  induction fuel with
  | zero => intro p _; rfl
  | succ n ih =>
      intro p hpos
      unfold loop_ended_after run_player_loop
      rw [exhausted_tick hc hpl hps hpos]
      exact ih { p with _np_message := none } hpos

/-- C3 (amended): a loop tick that finds the output device neither
playing nor paused with the cursor at the end of the queue clears the
now-playing notification and performs no device operation — but the
scheduling loop does NOT end there: it keeps ticking (awaiting new
tracks), however much fuel it is given. -/
theorem claim_C3_exhaustion_cleanup {dev : Device} {p : Player}
    (hc : dev.connected = true) (hpl : dev.playing = false)
    (hps : dev.paused = false)
    (hpos : p._pos = (p._queue.length : Int)) :
    _run_one_iteration dev p =
      .ok ({ p with _np_message := none }, [], (_update_np_message p none).2) ∧
    (∀ fuel, loop_ended_after fuel dev p = false) :=
  ⟨exhausted_tick hc hpl hps hpos,
   fun fuel => exhausted_loop_runs hc hpl hps fuel p hpos⟩

/-- C3 counterexample: at a concrete tick satisfying the claim's
condition (device neither playing nor paused, `pos = len(queue)`), the
tick does clear the notification and performs no device operation, but
the scheduling loop has still not ended five ticks later — refuting
"the scheduling loop ends". -/
theorem claim_C3_counterexample :
    devIdle.playing = false ∧ devIdle.paused = false ∧
    pExhausted._pos = (pExhausted._queue.length : Int) ∧
    _run_one_iteration devIdle pExhausted =
      .ok ({ pExhausted with _np_message := none }, [], [.deleteNp]) ∧
    loop_ended_after 5 devIdle pExhausted = false := by
  refine ⟨rfl, rfl, rfl, ?_, ?_⟩ <;> decide

/-- Witness for C3 (amended). -/
theorem claim_C3_exhaustion_cleanup_witness :
    _run_one_iteration devIdle pExhausted =
      .ok ({ pExhausted with _np_message := none }, [],
           (_update_np_message pExhausted none).2) ∧
    (∀ fuel, loop_ended_after fuel devIdle pExhausted = false) :=
  claim_C3_exhaustion_cleanup (by decide) (by decide) (by decide) (by decide)

/-- C4 counterexample: a lookup for an existing player from a request
in channel 2 returns the stored player and registry completely
unchanged — the notification destination is still channel 1, not the
channel of the most recent request. -/
theorem claim_C4_counterexample :
    cog0._players.lookup 0 = some pStored ∧
    get_player cog0 (some 0) 2 = .ok (pStored, cog0) ∧
    pStored._text_channel ≠ 2 := by
  refine ⟨rfl, ?_, by decide⟩
  decide

/-- C4 (amended): looking up a guild that already has a player returns
that same player, with queue, cursor and notification destination all
exactly as stored, and leaves the registry untouched; the lookup does
NOT update the notification destination to the requesting channel. -/
theorem claim_C4_lookup_returns_same_player
    (cog : MusicCog) (g channel : Nat) (p : Player)
    (h : cog._players.lookup g = some p) :
    get_player cog (some g) channel = .ok (p, cog) := by
  simp only [get_player]
  rw [h]

/-- Witness for C4 (amended). -/
theorem claim_C4_lookup_returns_same_player_witness :
    cog0._players.lookup 0 = some pStored ∧
    get_player cog0 (some 0) 2 = .ok (pStored, cog0) :=
  ⟨by decide, claim_C4_lookup_returns_same_player cog0 0 2 pStored (by decide)⟩

/-- C7: when resolution fails with `NotFoundError` or `ValueError`
(the source's `NotFound` / `InvalidInput`), `play_track` sends exactly
one error response to the caller and succeeds with the player state —
queue, cursor, notification, channel — exactly as it was: nothing is
enqueued. -/
theorem claim_C7_failed_resolution_enqueues_nothing
    (env : ResolveEnv) (p : Player) (q : String) (platform : Platform)
    (e : ResolveErr)
    (he : (from_query env q platform).1 = .error e)
    (hkind : e.isNotFound = true ∨ e = .valueError) :
    play_track env p q platform =
      .ok (p, [if e.isNotFound then .errorNotFound else .errorValue]) := by
  have hg : _get_track env q platform =
      (.ok none, [if e.isNotFound then .errorNotFound else .errorValue]) := by
    unfold _get_track
    rw [he]
    simp only []
    rcases hkind with hk | hk
    · rw [if_pos hk, if_pos hk]
    · subst hk
      rw [if_neg (by decide), if_pos rfl, if_neg (by decide)]
  unfold play_track
  rw [hg]

/-- Witness for C7: a free-text SoundCloud query fails with
`ValueError` and leaves the concrete player untouched. -/
theorem claim_C7_failed_resolution_enqueues_nothing_witness :
    (from_query env0 "rarinmusic gta" .SOUNDCLOUD).1 = .error .valueError ∧
    play_track env0 pStored "rarinmusic gta" .SOUNDCLOUD =
      .ok (pStored, [.errorValue]) :=
  ⟨by decide,
   claim_C7_failed_resolution_enqueues_nothing env0 pStored "rarinmusic gta"
     .SOUNDCLOUD .valueError (by decide) (Or.inr rfl)⟩

/-- The state `disconnect_player` leaves behind does not depend on the
device: the cursor decrement precedes the `vc` access. -/
theorem disconnect_player_state (dev : Device) (p : Player) :
    (disconnect_player dev p).1 =
      if 0 < p._pos then { p with _pos := p._pos - 1 } else p := by
  unfold disconnect_player
  cases hdc : dev.connected <;>
    simp only [hdc, Bool.false_eq_true, if_false, if_true]

/-- C8: `disconnect_player` decrements the cursor when it is positive
and leaves it at 0 otherwise (for any device state, since the
decrement happens before the output binding is released); in the
`pos = 3` scenario, after a disconnect and a successful reconnect the
cursor is 2 and the next tick on an idle device plays `queue[2]`. -/
theorem claim_C8_disconnect_resume
    (dev dev2 : Device) (p : Player)
    (hlen : 3 ≤ p._queue.length) (hpos : p._pos = 3)
    (h2c : dev2.connected = true) (h2p : dev2.playing = false)
    (h2s : dev2.paused = false) :
    (∀ q : Player, ((disconnect_player dev q).1)._pos =
        if 0 < q._pos then q._pos - 1 else q._pos) ∧
    ((disconnect_player dev p).1)._pos = 2 ∧
    ∃ t p2 nops, p._queue.get? 2 = some t ∧
      _run_one_iteration dev2 ((disconnect_player dev p).1) =
        .ok (p2, [.play t], nops) := by
  have hgen : ∀ q : Player, ((disconnect_player dev q).1)._pos =
      if 0 < q._pos then q._pos - 1 else q._pos := by
    intro q
    rw [disconnect_player_state]
    split <;> rfl
  have hp1 : (disconnect_player dev p).1 = { p with _pos := p._pos - 1 } := by
    rw [disconnect_player_state, if_pos (by omega)]
  obtain ⟨t, ht⟩ : ∃ t, p._queue.get? 2 = some t := by
    rw [List.get?_eq_get (show 2 < p._queue.length by omega)]
    exact ⟨_, rfl⟩
  have hget : _get_next_track { p with _pos := p._pos - 1 } =
      .ok (some t, { p with _pos := p._pos - 1 + 1 }) := by
    unfold _get_next_track
    rw [if_pos ⟨by simp only []; omega, by simp only []; omega⟩]
    rw [show ({ p with _pos := p._pos - 1 } : Player)._pos.toNat = 2 by
      simp only []; omega]
    simp only [ht]
  refine ⟨hgen, by rw [hgen p, if_pos (by omega), hpos]; decide, t,
    (_update_np_message { p with _pos := p._pos - 1 + 1 } (some t)).1,
    (_update_np_message { p with _pos := p._pos - 1 + 1 } (some t)).2, ht, ?_⟩
  rw [hp1]
  unfold _run_one_iteration
  rw [h2c]
  simp only [Bool.true_eq_false, if_false, h2p, h2s, Bool.or_self, Bool.false_eq_true,
    hget]

/-- Witness for C8: the scenario at a concrete player. -/
theorem claim_C8_disconnect_resume_witness :
    ((disconnect_player devIdle pThree).1)._pos = 2 ∧
    ∃ t p2 nops, pThree._queue.get? 2 = some t ∧
      _run_one_iteration devIdle ((disconnect_player devIdle pThree).1) =
        .ok (p2, [.play t], nops) :=
  ⟨(claim_C8_disconnect_resume devIdle devIdle pThree (by decide) (by decide)
      (by decide) (by decide) (by decide)).2.1,
   (claim_C8_disconnect_resume devIdle devIdle pThree (by decide) (by decide)
      (by decide) (by decide) (by decide)).2.2⟩

/-- If an index is present in the left part, appending does not change
what is there. -/
theorem get?_append_left {l l' : List Char} {n : Nat} {c : Char}
    (h : l.get? n = some c) : (l ++ l').get? n = some c := by
  have hn : n < l.length := by
    by_contra hge
    rw [List.get?_eq_none.mpr (Nat.le_of_not_lt hge)] at h
    exact absurd h (by simp)
  rw [List.get?_append hn]
  exact h

/-- Any string matched by `(https?:\/\/)?` is one of the three scheme
spellings. -/
theorem scheme_opt_shape {x : List Char} (h : rmatch (opt scheme_re) x = true) :
    x = [] ∨ x = "http://".data ∨ x = "https://".data := by
  rcases opt_rmatch h with h | rfl
  · obtain ⟨t1, u, rfl, h1, hu⟩ := seq_rmatch h
    have ht1 : t1 = "http".data := litL_rmatch h1
    obtain ⟨t2, t3, rfl, h2, h3⟩ := seq_rmatch hu
    have ht3 : t3 = "://".data := litL_rmatch h3
    rcases opt_rmatch h2 with h2' | rfl
    · obtain rfl := chr_rmatch h2'
      subst ht1 ht3
      right; right
      decide
    · subst ht1 ht3
      right; left
      decide
  · left; rfl

/-- The tail of any YouTube match starts with `youtu` or `www.y`. -/
theorem youtube_tail_shape {t : List Char}
    (h : rmatch youtube_tail t = true) :
    t.get? 0 = some 'y' ∨ (t.get? 0 = some 'w' ∧ t.get? 4 = some 'y') := by
  rw [youtube_tail] at h
  obtain ⟨a, b, rfl, ha, _⟩ := seq_rmatch h
  rcases alt_rmatch ha with h1 | h2
  · obtain ⟨a1, a2, rfl, h11, h12⟩ := seq_rmatch h1
    have ha2 : a2 = "youtube.com".data := litL_rmatch h12
    subst ha2
    rcases opt_rmatch h11 with h11' | rfl
    · have ha1 : a1 = "www.".data := litL_rmatch h11'
      subst ha1
      right
      exact ⟨rfl, rfl⟩
    · left; rfl
  · have hb : a = "youtu.be".data := litL_rmatch h2
    subst hb
    left; rfl

/-- The tail of any Spotify match starts with `o`. -/
theorem spotify_tail_shape {t : List Char}
    (h : rmatch spotify_tail t = true) :
    t.get? 0 = some 'o' := by
  rw [spotify_tail] at h
  obtain ⟨a, b, rfl, ha, _⟩ := seq_rmatch h
  have ha' : a = "open".data := litL_rmatch ha
  subst ha'
  rfl

/-- The tail of any SoundCloud match starts with `m`, `s`, or `www`
plus any character plus `m` or `s`. -/
theorem soundcloud_tail_shape {t : List Char}
    (h : rmatch soundcloud_tail t = true) :
    t.get? 0 = some 'm' ∨ t.get? 0 = some 's' ∨
      (t.get? 0 = some 'w' ∧ (t.get? 4 = some 'm' ∨ t.get? 4 = some 's')) := by
  rw [soundcloud_tail] at h
  obtain ⟨a, b, rfl, ha, hb⟩ := seq_rmatch h
  obtain ⟨c, d, rfl, hc, hd⟩ := seq_rmatch hb
  obtain ⟨e, f, rfl, he, _⟩ := seq_rmatch hd
  have he' : e = "soundcloud.com/".data := litL_rmatch he
  subst he'
  rcases opt_rmatch ha with ha' | rfl
  · obtain ⟨a1, a2, rfl, ha1, ha2⟩ := seq_rmatch ha'
    have h1 : a1 = "www".data := litL_rmatch ha1
    subst h1
    obtain ⟨ch, rfl, _⟩ := cls_rmatch ha2
    rcases opt_rmatch hc with hc' | rfl
    · have h2 : c = "m.".data := litL_rmatch hc'
      subst h2
      exact Or.inr (Or.inr ⟨rfl, Or.inl rfl⟩)
    · exact Or.inr (Or.inr ⟨rfl, Or.inr rfl⟩)
  · rcases opt_rmatch hc with hc' | rfl
    · have h2 : c = "m.".data := litL_rmatch hc'
      subst h2
      exact Or.inl rfl
    · exact Or.inr (Or.inl rfl)

/-- Scheme-and-tail decomposition forced by the YouTube pattern. -/
theorem youtube_match_shape {x : List Char}
    (h : rmatch youtube_pattern x = true) :
    ∃ sch t, x = sch ++ t ∧
      (sch = [] ∨ sch = "http://".data ∨ sch = "https://".data) ∧
      (t.get? 0 = some 'y' ∨ (t.get? 0 = some 'w' ∧ t.get? 4 = some 'y')) := by
  rw [youtube_pattern] at h
  obtain ⟨sch, t, rfl, hs, ht⟩ := seq_rmatch h
  exact ⟨sch, t, rfl, scheme_opt_shape hs, youtube_tail_shape ht⟩

/-- Scheme-and-tail decomposition forced by the Spotify pattern. -/
theorem spotify_match_shape {x : List Char}
    (h : rmatch spotify_pattern x = true) :
    ∃ sch t, x = sch ++ t ∧
      (sch = [] ∨ sch = "http://".data ∨ sch = "https://".data) ∧
      t.get? 0 = some 'o' := by
  rw [spotify_pattern] at h
  obtain ⟨sch, t, rfl, hs, ht⟩ := seq_rmatch h
  exact ⟨sch, t, rfl, scheme_opt_shape hs, spotify_tail_shape ht⟩

/-- Scheme-and-tail decomposition forced by the SoundCloud pattern. -/
theorem soundcloud_match_shape {x : List Char}
    (h : rmatch soundcloud_pattern x = true) :
    ∃ sch t, x = sch ++ t ∧
      (sch = [] ∨ sch = "http://".data ∨ sch = "https://".data) ∧
      (t.get? 0 = some 'm' ∨ t.get? 0 = some 's' ∨
        (t.get? 0 = some 'w' ∧ (t.get? 4 = some 'm' ∨ t.get? 4 = some 's'))) := by
  rw [soundcloud_pattern] at h
  obtain ⟨sch, t, rfl, hs, ht⟩ := seq_rmatch h
  exact ⟨sch, t, rfl, scheme_opt_shape hs, soundcloud_tail_shape ht⟩

/-- The scheme spelling a match starts with is determined by the
string itself: two decompositions whose tails start with a non-`h`
character use the same scheme. -/
theorem scheme_eq {x sch1 t1 sch2 t2 : List Char} {c1 c2 : Char}
    (h1 : x = sch1 ++ t1) (h2 : x = sch2 ++ t2)
    (hs1 : sch1 = [] ∨ sch1 = "http://".data ∨ sch1 = "https://".data)
    (hs2 : sch2 = [] ∨ sch2 = "http://".data ∨ sch2 = "https://".data)
    (hc1 : t1.get? 0 = some c1) (hc2 : t2.get? 0 = some c2)
    (hn1 : c1 ≠ 'h') (hn2 : c2 ≠ 'h') :
    sch1 = sch2 := by
  subst h1
  rcases hs1 with rfl | rfl | rfl <;> rcases hs2 with rfl | rfl | rfl <;> try rfl
  · -- [] vs "http://"
    have h2' : t1 = "http://".data ++ t2 := h2
    rw [h2'] at hc1
    exact absurd (Option.some.inj hc1).symm hn1
  · -- [] vs "https://"
    have h2' : t1 = "https://".data ++ t2 := h2
    rw [h2'] at hc1
    exact absurd (Option.some.inj hc1).symm hn1
  · -- "http://" vs []
    have h2' : t2 = "http://".data ++ t1 := h2.symm
    rw [h2'] at hc2
    exact absurd (Option.some.inj hc2).symm hn2
  · -- "http://" vs "https://"
    have hx : (some ':' : Option Char) = some 's' :=
      congrArg (fun l => l.get? 4) h2
    exact absurd (Option.some.inj hx) (by decide)
  · -- "https://" vs []
    have h2' : t2 = "https://".data ++ t1 := h2.symm
    rw [h2'] at hc2
    exact absurd (Option.some.inj hc2).symm hn2
  · -- "https://" vs "http://"
    have hx : (some 's' : Option Char) = some ':' :=
      congrArg (fun l => l.get? 4) h2
    exact absurd (Option.some.inj hx) (by decide)

/-- Lift of `youtube_match_shape` through the `$`-before-newline case
of `re.match`. -/
theorem youtube_pyMatch_shape {x : List Char}
    (h : pyMatch youtube_pattern x = true) :
    ∃ sch t, x = sch ++ t ∧
      (sch = [] ∨ sch = "http://".data ∨ sch = "https://".data) ∧
      (t.get? 0 = some 'y' ∨ (t.get? 0 = some 'w' ∧ t.get? 4 = some 'y')) := by
  unfold pyMatch at h
  rw [Bool.or_eq_true] at h
  rcases h with h | h
  · exact youtube_match_shape h
  · cases hlast : x.getLast? with
    | none => rw [hlast] at h; exact absurd h (by simp)
    | some lc =>
      rw [hlast, Bool.and_eq_true] at h
      obtain ⟨ys, rfl⟩ := List.getLast?_eq_some_iff.mp hlast
      rw [List.dropLast_concat] at h
      obtain ⟨sch, t, rfl, hs, ht⟩ := youtube_match_shape h.2
      refine ⟨sch, t ++ [lc], by rw [List.append_assoc], hs, ?_⟩
      rcases ht with h0 | ⟨h0, h4⟩
      · exact Or.inl (get?_append_left h0)
      · exact Or.inr ⟨get?_append_left h0, get?_append_left h4⟩

/-- Lift of `spotify_match_shape` through the `$`-before-newline case
of `re.match`. -/
theorem spotify_pyMatch_shape {x : List Char}
    (h : pyMatch spotify_pattern x = true) :
    ∃ sch t, x = sch ++ t ∧
      (sch = [] ∨ sch = "http://".data ∨ sch = "https://".data) ∧
      t.get? 0 = some 'o' := by
  unfold pyMatch at h
  rw [Bool.or_eq_true] at h
  rcases h with h | h
  · exact spotify_match_shape h
  · cases hlast : x.getLast? with
    | none => rw [hlast] at h; exact absurd h (by simp)
    | some lc =>
      rw [hlast, Bool.and_eq_true] at h
      obtain ⟨ys, rfl⟩ := List.getLast?_eq_some_iff.mp hlast
      rw [List.dropLast_concat] at h
      obtain ⟨sch, t, rfl, hs, ht⟩ := spotify_match_shape h.2
      exact ⟨sch, t ++ [lc], by rw [List.append_assoc], hs, get?_append_left ht⟩

/-- Lift of `soundcloud_match_shape` through the `$`-before-newline
case of `re.match`. -/
theorem soundcloud_pyMatch_shape {x : List Char}
    (h : pyMatch soundcloud_pattern x = true) :
    ∃ sch t, x = sch ++ t ∧
      (sch = [] ∨ sch = "http://".data ∨ sch = "https://".data) ∧
      (t.get? 0 = some 'm' ∨ t.get? 0 = some 's' ∨
        (t.get? 0 = some 'w' ∧ (t.get? 4 = some 'm' ∨ t.get? 4 = some 's'))) := by
  unfold pyMatch at h
  rw [Bool.or_eq_true] at h
  rcases h with h | h
  · exact soundcloud_match_shape h
  · cases hlast : x.getLast? with
    | none => rw [hlast] at h; exact absurd h (by simp)
    | some lc =>
      rw [hlast, Bool.and_eq_true] at h
      obtain ⟨ys, rfl⟩ := List.getLast?_eq_some_iff.mp hlast
      rw [List.dropLast_concat] at h
      obtain ⟨sch, t, rfl, hs, ht⟩ := soundcloud_match_shape h.2
      refine ⟨sch, t ++ [lc], by rw [List.append_assoc], hs, ?_⟩
      rcases ht with h0 | h0 | ⟨h0, h4⟩
      · exact Or.inl (get?_append_left h0)
      · exact Or.inr (Or.inl (get?_append_left h0))
      · refine Or.inr (Or.inr ⟨get?_append_left h0, ?_⟩)
        rcases h4 with h4 | h4
        · exact Or.inl (get?_append_left h4)
        · exact Or.inr (get?_append_left h4)

/-- Two forced characters at the same position clash. -/
theorem head_clash {t : List Char} {n : Nat} {a b : Char}
    (h1 : t.get? n = some a) (h2 : t.get? n = some b) (hne : a ≠ b) : False :=
  hne (Option.some.inj (h1.symm.trans h2))

/-- No string matches both the YouTube and the Spotify pattern. -/
theorem youtube_spotify_excl {x : List Char}
    (hy : pyMatch youtube_pattern x = true)
    (hp : pyMatch spotify_pattern x = true) : False := by
  obtain ⟨s1, t1, e1, hs1, ht1⟩ := youtube_pyMatch_shape hy
  obtain ⟨s2, t2, e2, hs2, ht2⟩ := spotify_pyMatch_shape hp
  rcases ht1 with h0 | ⟨h0, _⟩
  · obtain rfl := scheme_eq e1 e2 hs1 hs2 h0 ht2 (by decide) (by decide)
    obtain rfl := List.append_cancel_left (e1.symm.trans e2)
    exact head_clash h0 ht2 (by decide)
  · obtain rfl := scheme_eq e1 e2 hs1 hs2 h0 ht2 (by decide) (by decide)
    obtain rfl := List.append_cancel_left (e1.symm.trans e2)
    exact head_clash h0 ht2 (by decide)

/-- No string matches both the YouTube and the SoundCloud pattern. -/
theorem youtube_soundcloud_excl {x : List Char}
    (hy : pyMatch youtube_pattern x = true)
    (hc : pyMatch soundcloud_pattern x = true) : False := by
  obtain ⟨s1, t1, e1, hs1, ht1⟩ := youtube_pyMatch_shape hy
  obtain ⟨s2, t2, e2, hs2, ht2⟩ := soundcloud_pyMatch_shape hc
  rcases ht1 with h0 | ⟨h0, h4⟩
  · rcases ht2 with g0 | g0 | ⟨g0, _⟩
    · obtain rfl := scheme_eq e1 e2 hs1 hs2 h0 g0 (by decide) (by decide)
      obtain rfl := List.append_cancel_left (e1.symm.trans e2)
      exact head_clash h0 g0 (by decide)
    · obtain rfl := scheme_eq e1 e2 hs1 hs2 h0 g0 (by decide) (by decide)
      obtain rfl := List.append_cancel_left (e1.symm.trans e2)
      exact head_clash h0 g0 (by decide)
    · obtain rfl := scheme_eq e1 e2 hs1 hs2 h0 g0 (by decide) (by decide)
      obtain rfl := List.append_cancel_left (e1.symm.trans e2)
      exact head_clash h0 g0 (by decide)
  · rcases ht2 with g0 | g0 | ⟨g0, g4⟩
    · obtain rfl := scheme_eq e1 e2 hs1 hs2 h0 g0 (by decide) (by decide)
      obtain rfl := List.append_cancel_left (e1.symm.trans e2)
      exact head_clash h0 g0 (by decide)
    · obtain rfl := scheme_eq e1 e2 hs1 hs2 h0 g0 (by decide) (by decide)
      obtain rfl := List.append_cancel_left (e1.symm.trans e2)
      exact head_clash h0 g0 (by decide)
    · obtain rfl := scheme_eq e1 e2 hs1 hs2 h0 g0 (by decide) (by decide)
      obtain rfl := List.append_cancel_left (e1.symm.trans e2)
      rcases g4 with g4 | g4
      · exact head_clash h4 g4 (by decide)
      · exact head_clash h4 g4 (by decide)

/-- No string matches both the Spotify and the SoundCloud pattern. -/
theorem spotify_soundcloud_excl {x : List Char}
    (hp : pyMatch spotify_pattern x = true)
    (hc : pyMatch soundcloud_pattern x = true) : False := by
  obtain ⟨s1, t1, e1, hs1, ht1⟩ := spotify_pyMatch_shape hp
  obtain ⟨s2, t2, e2, hs2, ht2⟩ := soundcloud_pyMatch_shape hc
  rcases ht2 with g0 | g0 | ⟨g0, _⟩
  · obtain rfl := scheme_eq e1 e2 hs1 hs2 ht1 g0 (by decide) (by decide)
    obtain rfl := List.append_cancel_left (e1.symm.trans e2)
    exact head_clash ht1 g0 (by decide)
  · obtain rfl := scheme_eq e1 e2 hs1 hs2 ht1 g0 (by decide) (by decide)
    obtain rfl := List.append_cancel_left (e1.symm.trans e2)
    exact head_clash ht1 g0 (by decide)
  · obtain rfl := scheme_eq e1 e2 hs1 hs2 ht1 g0 (by decide) (by decide)
    obtain rfl := List.append_cancel_left (e1.symm.trans e2)
    exact head_clash ht1 g0 (by decide)

/-- C9: after suppression-bracket stripping, at most one of the three
platform URL patterns matches any input string, so the first match of
`_infer_from_url`'s ladder is the only match and the result does not
depend on the order the patterns are tried. -/
theorem claim_C9_patterns_mutually_exclusive (s : String) :
    url_pattern_match_count s ≤ 1 := by
  unfold url_pattern_match_count
  generalize strip_suppression s.data = cs
  by_cases hy : pyMatch youtube_pattern cs = true
  · by_cases hp : pyMatch spotify_pattern cs = true
    · exact absurd (youtube_spotify_excl hy hp) not_false
    · by_cases hc : pyMatch soundcloud_pattern cs = true
      · exact absurd (youtube_soundcloud_excl hy hc) not_false
      · simp [hy, hp, hc]
  · by_cases hp : pyMatch spotify_pattern cs = true
    · by_cases hc : pyMatch soundcloud_pattern cs = true
      · exact absurd (spotify_soundcloud_excl hp hc) not_false
      · simp [hy, hp, hc]
    · by_cases hc : pyMatch soundcloud_pattern cs = true
      · simp [hy, hp, hc]
      · simp [hy, hp, hc]

end Tacocat
